import Mathlib

/-!
Verification of the dataset bootstrap / synchronization helper
(`boostrap_helper.py`, class `BootstrapHelper`).

The file-system effects of the three operations under study —
`align_images_and_csvs`, `_bootstrap_internal` (the per-image body of
`bootstrap`), and `remove_outliers` — are embedded as pure functions over
explicit states:

* a per-pose-class state holds the contents of the class CSV file
  (`none` when the file is absent, since the source opens it without an
  existence check and `open` raises on a missing file) and the listing of
  the class's output image folder;
* the per-image bootstrap body returns the names written to the output
  folder, the CSV rows appended, and whether the landmark-shape assertion
  fired;
* outlier removal walks the outlier list, deleting files until it either
  finishes or hits a missing file (where `os.remove` raises), returning
  the state reached and the offending path if any.
-/

/-- A CSV row: a list of string fields, as read or written by Python's
`csv.reader` / `csv.writer`. -/
abbrev Row := List String

/-- The first field of a CSV row (`row[0]` in the source; every row reaching
that access is nonempty because empty rows were filtered out). -/
def rowName (r : Row) : String := r.headD ""

/-- State of one pose class as seen by `align_images_and_csvs`:
`csv` is the contents of `<csvs_out_folder>/<pose_class_name>.csv`
(`none` when that file does not exist), and `folder` is the listing of
`<per_level_out_folder>/<pose_class_name>` (`os.listdir`). -/
structure ClassState where
  csv : Option (List Row)
  folder : List String
deriving DecidableEq, Repr

/-- The rows kept when the CSV is rewritten: the source first reads all rows
skipping empty ones (`if not len(row) == 0`), then writes back exactly the
rows whose `row[0]` names a file that exists in the output folder
(`os.path.exists(image_path)`). -/
def keptRows (folder : List String) (rows : List Row) : List Row :=
  (rows.filter (fun r => !r.isEmpty)).filter (fun r => decide (rowName r ∈ folder))

/-- Loop body of `BootstrapHelper.align_images_and_csvs` for one pose class.
The source opens the class CSV with no existence check, so a missing CSV
raises (`Except.error ()`).  Otherwise it rewrites the CSV keeping only rows
whose image exists (collecting their names in `image_names_in_csv`), then
deletes every file of the output folder whose name is not in that list
(`if image_name not in image_names_in_csv: os.remove(image_path)`).
The `print_removed_items` logging has no file-system effect and is omitted. -/
def alignClass (st : ClassState) : Except Unit ClassState :=
  match st.csv with
  | none => Except.error ()
  | some rows =>
    let kept := keptRows st.folder rows
    let image_names_in_csv := kept.map rowName
    Except.ok ⟨some kept, st.folder.filter (fun n => decide (n ∈ image_names_in_csv))⟩

/-- Membership in the kept rows. -/
theorem mem_keptRows {folder : List String} {rows : List Row} {r : Row} :
    r ∈ keptRows folder rows ↔ r ∈ rows ∧ r.isEmpty = false ∧ rowName r ∈ folder := by
  simp only [keptRows, List.mem_filter, Bool.not_eq_true', List.isEmpty_eq_false,
    decide_eq_true_eq, List.isEmpty_iff]
  tauto

/-- Membership in the pruned folder: a file survives the deletion loop exactly
when it was present and its name occurs among the kept rows' image names. -/
theorem mem_alignedFolder {st : ClassState} {rows : List Row} {st' : ClassState}
    (hcsv : st.csv = some rows) (h : alignClass st = Except.ok st') {n : String} :
    n ∈ st'.folder ↔ n ∈ st.folder ∧ n ∈ (keptRows st.folder rows).map rowName := by
  simp only [alignClass, hcsv, Except.ok.injEq] at h
  subst h
  simp [List.mem_filter]

/-- The CSV side of the result state. -/
theorem aligned_csv {st : ClassState} {rows : List Row} {st' : ClassState}
    (hcsv : st.csv = some rows) (h : alignClass st = Except.ok st') :
    st'.csv = some (keptRows st.folder rows) := by
  simp only [alignClass, hcsv, Except.ok.injEq] at h
  subst h
  rfl

/-- Every kept image name refers to a file that was present in the folder. -/
theorem keptRows_names_sub {folder : List String} {rows : List Row} {n : String}
    (h : n ∈ (keptRows folder rows).map rowName) : n ∈ folder := by
  rcases List.mem_map.mp h with ⟨r, hr, hrn⟩
  rcases mem_keptRows.mp hr with ⟨-, -, hmem⟩
  exact hrn ▸ hmem

/-- The per-class image listing of `bootstrap`:
`sorted([n for n in os.listdir(images_in_folder) if not n.startswith('.')])`,
then `image_names[:per_pose_class_limit]` when a limit is given. -/
def listImageNames (entries : List String) (per_pose_class_limit : Option Nat) :
    List String :=
  let image_names :=
    (entries.filter (fun n => !n.startsWith ".")).mergeSort (fun a b => decide (a ≤ b))
  match per_pose_class_limit with
  | none => image_names
  | some k => image_names.take k

/-- One detected landmark, with the detector's normalized coordinates
(`lmk.x`, `lmk.y`, `lmk.z`).  Coordinates are modelled as rationals; the
claims under study depend only on counts and shapes, never on rounding. -/
structure Landmark where
  x : ℚ
  y : ℚ
  z : ℚ
deriving DecidableEq, Repr

/-- The scaled landmark array
`np.array([[lmk.x * frame_width, lmk.y * frame_height, lmk.z * frame_width]
for lmk in pose_landmarks.landmark])`: a list of rows of length 3, so its
numpy shape is `(len, 3)` and the assertion `shape == (33, 3)` holds exactly
when the outer length is 33. -/
def scaleLandmarks (frame_width frame_height : ℚ) (lmks : List Landmark) :
    List (List ℚ) :=
  lmks.map (fun l => [l.x * frame_width, l.y * frame_height, l.z * frame_width])

/-- File-system effects of one `_bootstrap_internal` call:
`out_images` are the names written into the per-class output image folder,
`csv_rows` the rows appended to the class CSV, and `assert_failed` records
whether the landmark-shape assertion fired (an `AssertionError` aborts the
run before any row for this image is written). -/
structure InternalResult where
  out_images : List String
  csv_rows : List Row
  assert_failed : Bool
deriving DecidableEq, Repr

/-- `BootstrapHelper._bootstrap_internal` for one image.  The source writes
the color-space-converted copy of the input frame to the output folder
unconditionally (`cv2.imwrite(...)` before the `if pose_landmarks is not
None:` branch).  When the detector returned landmarks it builds the scaled
array, asserts its shape is `(33, 3)`, and only then appends
`[image_name] + flattened.astype(np.str).tolist()` to the class CSV.
The annotated-image and 3D-plot renderings target separate visualization
trees and are not part of the states under study. -/
def bootstrap_internal (image_name : String) (frame_width frame_height : ℚ)
    (pose_landmarks : Option (List Landmark)) : InternalResult :=
  let written := [image_name]
  match pose_landmarks with
  | none => ⟨written, [], false⟩
  | some lmks =>
    let scaled := scaleLandmarks frame_width frame_height lmks
    if scaled.length = 33 then
      ⟨written, [image_name :: (scaled.flatten.map toString)], false⟩
    else
      ⟨written, [], true⟩

/-- A sample reference inside an outlier record (`outlier.sample`). -/
structure Sample where
  class_name : String
  name : String
deriving DecidableEq, Repr

/-- An outlier record as consumed by `analyze_outliers` / `remove_outliers`. -/
structure Outlier where
  sample : Sample
  detected_class : String
  all_classes : List String
deriving DecidableEq, Repr

/-- The path `os.path.join(per_level_out_folder, class_name, name)` of an
outlier's output image, as the pair `(class_name, name)`. -/
def outlierPath (o : Outlier) : String × String :=
  (o.sample.class_name, o.sample.name)

/-- Per-level file-system state seen by `remove_outliers`: `files` lists the
`(pose_class_name, image_name)` paths present under `per_level_out_folder`,
and `csvs` holds each class's CSV contents.  `remove_outliers` never touches
the CSVs. -/
structure LevelState where
  files : List (String × String)
  csvs : List (String × List Row)
deriving DecidableEq, Repr

/-- The `for outlier in outliers: os.remove(image_path)` loop.  `os.remove`
has no existence check: on a missing path it raises `FileNotFoundError`,
which aborts the loop.  The result is the file listing reached together with
the offending path, if any. -/
def removeLoop (files : List (String × String)) :
    List Outlier → List (String × String) × Option (String × String)
  | [] => (files, none)
  | o :: rest =>
    let p := outlierPath o
    if p ∈ files then removeLoop (files.filter (fun q => decide (q ≠ p))) rest
    else (files, some p)

/-- `BootstrapHelper.remove_outliers`: delete each outlier's output image in
list order; the per-class CSV files are never read or written. -/
def remove_outliers (outliers : List Outlier) (st : LevelState) :
    LevelState × Option (String × String) :=
  let r := removeLoop st.files outliers
  (⟨r.1, st.csvs⟩, r.2)

/-- Rewriting the CSV a second time against the already-pruned folder keeps
every row: each kept row is nonempty and its image survived the deletion
loop. -/
theorem keptRows_restabilize (folder : List String) (rows : List Row) :
    keptRows (folder.filter (fun n => decide (n ∈ (keptRows folder rows).map rowName)))
        (keptRows folder rows) = keptRows folder rows := by
  have h1 : (keptRows folder rows).filter (fun r => !r.isEmpty) = keptRows folder rows := by
    apply List.filter_eq_self.mpr
    intro r hr
    simpa using (mem_keptRows.mp hr).2.1
  show ((keptRows folder rows).filter (fun r => !r.isEmpty)).filter
      (fun r => decide (rowName r ∈
        folder.filter (fun n => decide (n ∈ (keptRows folder rows).map rowName)))) =
    keptRows folder rows
  rw [h1]
  apply List.filter_eq_self.mpr
  intro r hr
  have h := mem_keptRows.mp hr
  simp only [decide_eq_true_eq, List.mem_filter, decide_eq_true_eq]
  exact ⟨h.2.2, List.mem_map_of_mem rowName hr⟩

/-! ## Claim theorems -/

/-- C1, counterexample to the strict bijection: on a prior state whose CSV
holds two rows both naming the image `dup` while the folder holds the single
file `dup`, `align_images_and_csvs` keeps both rows and the one file, so the
single file `dup` corresponds to two CSV rows — not exactly one. -/
theorem align_not_strict_bijection :
    alignClass ⟨some [["dup"], ["dup"]], ["dup"]⟩ =
        Except.ok ⟨some [["dup"], ["dup"]], ["dup"]⟩ ∧
      (([["dup"], ["dup"]] : List Row).filter
          (fun r => decide (rowName r = "dup"))).length = 2 ∧
      (["dup"] : List String).length = 1 :=
  ⟨rfl, by decide, rfl⟩

/-- C1 (amended): after `align_images_and_csvs` runs on a class whose CSV
file exists, the set of image names in the rewritten CSV equals exactly the
set of file names in the output folder — every kept row's name has its file
and every remaining file's name appears in a kept row.  The correspondence
is a strict bijection (the kept names are a permutation of the folder
listing) whenever the kept rows carry pairwise-distinct image names;
duplicate rows naming the same image all survive alongside the one file. -/
theorem align_names_eq_folder (st : ClassState) (rows : List Row)
    (st' : ClassState) (hcsv : st.csv = some rows)
    (h : alignClass st = Except.ok st') :
    (∀ n, n ∈ (st'.csv.getD []).map rowName ↔ n ∈ st'.folder) ∧
    (((st'.csv.getD []).map rowName).Nodup → st.folder.Nodup →
      ((st'.csv.getD []).map rowName).Perm st'.folder) := by
  have hc := aligned_csv hcsv h
  have hmem : ∀ n, n ∈ (st'.csv.getD []).map rowName ↔ n ∈ st'.folder := by
    intro n
    rw [mem_alignedFolder hcsv h, hc]
    simp only [Option.getD_some]
    exact ⟨fun hn => ⟨keptRows_names_sub hn, hn⟩, fun hn => hn.2⟩
  refine ⟨hmem, fun hnd hfnd => ?_⟩
  have hfnd' : st'.folder.Nodup := by
    simp only [alignClass, hcsv, Except.ok.injEq] at h
    subst h
    exact hfnd.filter _
  exact (List.perm_ext_iff_of_nodup hnd hfnd').mpr hmem

/-- Closed witness for `align_names_eq_folder`: a concrete run with CSV rows
for `a.jpg` and a stale `gone.jpg`, and a folder holding `a.jpg` and an
orphaned `b.jpg`. -/
theorem align_names_eq_folder_witness :
    (∀ n, n ∈ (((⟨some [["a.jpg", "1"]], ["a.jpg"]⟩ : ClassState)).csv.getD []).map rowName ↔
       n ∈ (⟨some [["a.jpg", "1"]], ["a.jpg"]⟩ : ClassState).folder) ∧
    (((((⟨some [["a.jpg", "1"]], ["a.jpg"]⟩ : ClassState)).csv.getD []).map rowName).Nodup →
      (⟨some [["a.jpg", "1"], ["gone.jpg", "2"]], ["a.jpg", "b.jpg"]⟩ : ClassState).folder.Nodup →
      ((((⟨some [["a.jpg", "1"]], ["a.jpg"]⟩ : ClassState)).csv.getD []).map rowName).Perm
        (⟨some [["a.jpg", "1"]], ["a.jpg"]⟩ : ClassState).folder) :=
  align_names_eq_folder ⟨some [["a.jpg", "1"], ["gone.jpg", "2"]], ["a.jpg", "b.jpg"]⟩
    [["a.jpg", "1"], ["gone.jpg", "2"]] ⟨some [["a.jpg", "1"]], ["a.jpg"]⟩ rfl rfl

/-- C2: `align_images_and_csvs` is idempotent on every class it completed:
running it again from the state it produced succeeds and changes nothing —
the rewritten CSV and the pruned folder are fixed points. -/
theorem align_idempotent (st st' : ClassState)
    (h : alignClass st = Except.ok st') : alignClass st' = Except.ok st' := by
  rcases hcsv : st.csv with _ | rows
  · simp [alignClass, hcsv] at h
  · simp only [alignClass, hcsv, Except.ok.injEq] at h
    subst h
    simp only [alignClass, keptRows_restabilize]
    rw [List.filter_eq_self.mpr]
    intro n hn
    rcases List.mem_filter.mp hn with ⟨-, hd⟩
    simpa using hd

/-- Closed witness for `align_idempotent`: the concrete run of
`align_names_eq_folder_witness` is a fixed point of a second run. -/
theorem align_idempotent_witness :
    alignClass ⟨some [["a.jpg", "1"]], ["a.jpg"]⟩ =
      Except.ok ⟨some [["a.jpg", "1"]], ["a.jpg"]⟩ :=
  align_idempotent ⟨some [["a.jpg", "1"], ["gone.jpg", "2"]], ["a.jpg", "b.jpg"]⟩
    ⟨some [["a.jpg", "1"]], ["a.jpg"]⟩ rfl

/-- Flattening the scaled landmark array yields 3 coordinate values per
landmark. -/
theorem length_flatten_scaleLandmarks (fw fh : ℚ) (lmks : List Landmark) :
    (scaleLandmarks fw fh lmks).flatten.length = 3 * lmks.length := by
  induction lmks with
  | nil => simp [scaleLandmarks]
  | cons a tl ih =>
    simp only [scaleLandmarks, List.map_cons, List.flatten_cons, List.length_append,
      List.length_cons, List.length_nil] at ih ⊢
    omega

/-- The scaled array has one row per detected landmark. -/
theorem length_scaleLandmarks (fw fh : ℚ) (lmks : List Landmark) :
    (scaleLandmarks fw fh lmks).length = lmks.length :=
  List.length_map _ _

/-- C3: during bootstrap, a CSV row is appended for an image exactly when
pose detection succeeded on it (the detector contract returning its 33
landmarks): no detection appends no row, while a successful detection
appends exactly one row consisting of the image name followed by the 99
flattened coordinate values — 100 fields in all, headed by the image name. -/
theorem bootstrap_row_iff_detected (image_name : String) (fw fh : ℚ)
    (res : Option (List Landmark)) :
    (res = none → (bootstrap_internal image_name fw fh res).csv_rows = []) ∧
    (∀ lmks, res = some lmks → lmks.length = 33 →
      (bootstrap_internal image_name fw fh res).csv_rows.length = 1 ∧
      ∀ r ∈ (bootstrap_internal image_name fw fh res).csv_rows,
        r.length = 100 ∧ rowName r = image_name) := by
  constructor
  · rintro rfl
    rfl
  · rintro lmks rfl h33
    have hs : (scaleLandmarks fw fh lmks).length = 33 := by
      rw [length_scaleLandmarks, h33]
    simp only [bootstrap_internal]
    rw [if_pos hs]
    refine ⟨rfl, fun r hr => ?_⟩
    rcases List.mem_singleton.mp hr with rfl
    refine ⟨?_, rfl⟩
    show (image_name :: (scaleLandmarks fw fh lmks).flatten.map toString).length = 100
    rw [List.length_cons, List.length_map, length_flatten_scaleLandmarks, h33]

/-- Closed witness for `bootstrap_row_iff_detected`: a failed detection on
`a.jpg` appends nothing; a successful detection with 33 landmarks appends
one 100-field row. -/
theorem bootstrap_row_iff_detected_witness :
    (bootstrap_internal "a.jpg" 4 3 none).csv_rows = [] ∧
    ((bootstrap_internal "a.jpg" 4 3 (some (List.replicate 33 ⟨0, 0, 0⟩))).csv_rows.length = 1 ∧
      ∀ r ∈ (bootstrap_internal "a.jpg" 4 3 (some (List.replicate 33 ⟨0, 0, 0⟩))).csv_rows,
        r.length = 100 ∧ rowName r = "a.jpg") :=
  ⟨(bootstrap_row_iff_detected "a.jpg" 4 3 none).1 rfl,
   (bootstrap_row_iff_detected "a.jpg" 4 3 (some (List.replicate 33 ⟨0, 0, 0⟩))).2
     (List.replicate 33 ⟨0, 0, 0⟩) rfl (by simp)⟩

/-- C5: when pose detection finds no body in an image, the bootstrap body
raises no error: the color-space-converted copy of the image is still
written to the per-class output folder, no CSV row is appended, and the
shape assertion does not fire. -/
theorem bootstrap_no_detection (image_name : String) (fw fh : ℚ) :
    bootstrap_internal image_name fw fh none = ⟨[image_name], [], false⟩ :=
  rfl

/-- C6: if detection succeeded but the scaled landmark array's shape is not
`(33, 3)` — its row count differs from 33 — the assertion fires and no CSV
row is written for that image; under the detector contract of exactly 33
landmarks the assertion branch is unreachable. -/
theorem bootstrap_assert_guard (image_name : String) (fw fh : ℚ) :
    (∀ lmks, (scaleLandmarks fw fh lmks).length ≠ 33 →
      (bootstrap_internal image_name fw fh (some lmks)).assert_failed = true ∧
      (bootstrap_internal image_name fw fh (some lmks)).csv_rows = []) ∧
    (∀ lmks : List Landmark, lmks.length = 33 →
      (bootstrap_internal image_name fw fh (some lmks)).assert_failed = false) := by
  constructor
  · intro lmks hne
    simp only [bootstrap_internal]
    rw [if_neg hne]
    exact ⟨rfl, rfl⟩
  · intro lmks h33
    have hs : (scaleLandmarks fw fh lmks).length = 33 := by
      rw [length_scaleLandmarks, h33]
    simp only [bootstrap_internal]
    rw [if_pos hs]

/-- Closed witness for `bootstrap_assert_guard`: an empty landmark list
trips the assertion and yields no row, while 33 landmarks never trip it. -/
theorem bootstrap_assert_guard_witness :
    ((bootstrap_internal "a.jpg" 4 3 (some [])).assert_failed = true ∧
      (bootstrap_internal "a.jpg" 4 3 (some [])).csv_rows = []) ∧
    (bootstrap_internal "a.jpg" 4 3 (some (List.replicate 33 ⟨0, 0, 0⟩))).assert_failed = false :=
  ⟨(bootstrap_assert_guard "a.jpg" 4 3).1 [] (by decide),
   (bootstrap_assert_guard "a.jpg" 4 3).2 (List.replicate 33 ⟨0, 0, 0⟩) (by simp)⟩

/-- C4: rows that survive pruning keep their original relative order — the
rewritten CSV is a sublist of the rows that were read — and the bootstrap
image listing is the sorted non-hidden folder listing, truncated to its
first `k` names when the per-class limit `k` is given. -/
theorem align_order_and_bootstrap_listing (st : ClassState) (rows : List Row)
    (st' : ClassState) (hcsv : st.csv = some rows)
    (h : alignClass st = Except.ok st')
    (entries : List String) (lim : Option Nat) (k : Nat) :
    List.Sublist (st'.csv.getD []) rows ∧
    listImageNames entries (some k) = (listImageNames entries none).take k ∧
    (listImageNames entries lim).Pairwise (fun a b => a ≤ b) := by
  refine ⟨?_, rfl, ?_⟩
  · rw [aligned_csv hcsv h]
    exact (List.filter_sublist _).trans (List.filter_sublist _)
  · have hsorted : ((entries.filter (fun n => !n.startsWith ".")).mergeSort
        (fun a b => decide (a ≤ b))).Pairwise (fun a b => a ≤ b) := by
      have hp := @List.sorted_mergeSort String (fun a b => decide (a ≤ b))
        (fun a b c hab hbc =>
          decide_eq_true (le_trans (of_decide_eq_true hab) (of_decide_eq_true hbc)))
        (fun a b => by simpa using le_total a b)
        (entries.filter (fun n => !n.startsWith "."))
      exact hp.imp (fun hab => of_decide_eq_true hab)
    cases lim with
    | none => exact hsorted
    | some k' => exact hsorted.sublist (List.take_sublist _ _)

/-- Closed witness for `align_order_and_bootstrap_listing`: a concrete CSV
pruning together with a concrete listing, limited to its first name. -/
theorem align_order_and_bootstrap_listing_witness :
    List.Sublist ((⟨some [["b", "2"], ["a", "1"]], ["a", "b"]⟩ : ClassState).csv.getD [])
      [["b", "2"], ["gone", "9"], ["a", "1"]] ∧
    listImageNames ["b.jpg", ".hidden", "a.jpg"] (some 1) =
      (listImageNames ["b.jpg", ".hidden", "a.jpg"] none).take 1 ∧
    (listImageNames ["b.jpg", ".hidden", "a.jpg"] (some 1)).Pairwise (fun a b => a ≤ b) :=
  align_order_and_bootstrap_listing
    ⟨some [["b", "2"], ["gone", "9"], ["a", "1"]], ["a", "b"]⟩
    [["b", "2"], ["gone", "9"], ["a", "1"]]
    ⟨some [["b", "2"], ["a", "1"]], ["a", "b"]⟩ rfl rfl
    ["b.jpg", ".hidden", "a.jpg"] (some 1) 1

/-- C7, counterexample: with the class CSV file missing,
`align_images_and_csvs` raises — the source opens the CSV with no existence
check — instead of handling the absence by pruning. -/
theorem align_missing_csv_raises :
    alignClass ⟨none, ["a.jpg"]⟩ = Except.error () :=
  rfl

/-- C7 (amended): an image referenced by a CSV row but missing from the
output folder is handled by pruning the stale row rather than raising, and
the operation always completes when the CSV file exists; a missing CSV
file, by contrast, makes the operation raise. -/
theorem align_missing_handling (st : ClassState) (rows : List Row) :
    (st.csv = some rows →
      ∃ st', alignClass st = Except.ok st' ∧
        ∀ r ∈ rows, rowName r ∉ st.folder → r ∉ st'.csv.getD []) ∧
    (st.csv = none → alignClass st = Except.error ()) := by
  constructor
  · intro hcsv
    refine ⟨⟨some (keptRows st.folder rows), st.folder.filter
        (fun n => decide (n ∈ (keptRows st.folder rows).map rowName))⟩,
      by simp [alignClass, hcsv], ?_⟩
    intro r _ hnot
    simp only [Option.getD_some]
    intro hmem
    exact hnot (mem_keptRows.mp hmem).2.2
  · intro hnone
    simp [alignClass, hnone]

/-- Closed witness for `align_missing_handling`: a CSV whose single row
references a missing image is pruned without raising, and a class with no
CSV file raises. -/
theorem align_missing_handling_witness :
    (∃ st', alignClass ⟨some [["gone.jpg", "9"]], ["other.jpg"]⟩ = Except.ok st' ∧
      ∀ r ∈ [["gone.jpg", "9"]],
        rowName r ∉ (⟨some [["gone.jpg", "9"]], ["other.jpg"]⟩ : ClassState).folder →
          r ∉ st'.csv.getD []) ∧
    alignClass ⟨none, ["b.jpg"]⟩ = Except.error () :=
  ⟨(align_missing_handling ⟨some [["gone.jpg", "9"]], ["other.jpg"]⟩
      [["gone.jpg", "9"]]).1 rfl,
   (align_missing_handling ⟨none, ["b.jpg"]⟩ []).2 rfl⟩

/-- C9: the deletion loop of `align_images_and_csvs` applies no hidden-name
filter: a file of the output folder whose name is not among the kept rows'
image names does not survive, names starting with `.` included — even
though the class and image listings elsewhere exclude hidden entries. -/
theorem align_delete_no_hidden_filter (st : ClassState) (rows : List Row)
    (st' : ClassState) (hcsv : st.csv = some rows)
    (h : alignClass st = Except.ok st') (n : String)
    (hnot : n ∉ (st'.csv.getD []).map rowName) :
    n ∉ st'.folder ∧
    (n.startsWith "." = true → ∀ entries lim, n ∉ listImageNames entries lim) := by
  constructor
  · intro hmem
    have hsplit := (mem_alignedFolder hcsv h).mp hmem
    rw [aligned_csv hcsv h] at hnot
    exact hnot (by simpa using hsplit.2)
  · intro hhid entries lim hmem
    have hm : n ∈ (entries.filter (fun m => !m.startsWith ".")).mergeSort
        (fun a b => decide (a ≤ b)) := by
      cases lim with
      | none => exact hmem
      | some k => exact (List.take_sublist _ _).subset hmem
    rw [List.mem_mergeSort] at hm
    have hf := (List.mem_filter.mp hm).2
    rw [hhid] at hf
    simp at hf

/-- Closed witness for `align_delete_no_hidden_filter`: a hidden
`.DS_Store` file with no CSV row is deleted, while every image listing
excludes it from the start. -/
theorem align_delete_no_hidden_filter_witness :
    ".DS_Store" ∉ (⟨some [["a.jpg", "1"]], ["a.jpg"]⟩ : ClassState).folder ∧
    ((".DS_Store" : String).startsWith "." = true →
      ∀ entries lim, ".DS_Store" ∉ listImageNames entries lim) :=
  align_delete_no_hidden_filter ⟨some [["a.jpg", "1"]], ["a.jpg", ".DS_Store"]⟩
    [["a.jpg", "1"]] ⟨some [["a.jpg", "1"]], ["a.jpg"]⟩ rfl rfl ".DS_Store" (by decide)

/-- When every outlier's path is present in the listing and the paths are
pairwise distinct, the removal loop deletes exactly those paths and nothing
raises. -/
theorem removeLoop_all_present (os : List Outlier) :
    ∀ (files : List (String × String)),
      (os.map outlierPath).Nodup → (∀ p ∈ os.map outlierPath, p ∈ files) →
      removeLoop files os =
        (files.filter (fun q => decide (q ∉ os.map outlierPath)), none) := by
  induction os with
  | nil =>
    intro files _ _
    simp [removeLoop]
  | cons o rest ih =>
    intro files hnd hsub
    have hin : outlierPath o ∈ files := hsub _ (by simp)
    have hnotin : outlierPath o ∉ rest.map outlierPath := (List.nodup_cons.mp hnd).1
    simp only [removeLoop, if_pos hin]
    rw [ih _ (List.nodup_cons.mp hnd).2 ?_]
    · congr 1
      rw [List.filter_filter]
      apply List.filter_congr
      intro q _
      by_cases h1 : q = outlierPath o <;> by_cases h2 : q ∈ rest.map outlierPath <;>
        simp [h1, h2]
    · intro p hp
      refine List.mem_filter.mpr ⟨hsub _ (List.mem_cons_of_mem _ hp), ?_⟩
      simp only [decide_eq_true_eq]
      intro hq
      exact hnotin (hq ▸ hp)

/-- The removal loop over an appended list runs the first segment first and
continues with the second exactly when nothing raised in the first. -/
theorem removeLoop_append (pre post : List Outlier) :
    ∀ files : List (String × String),
      removeLoop files (pre ++ post) =
        match removeLoop files pre with
        | (f, none) => removeLoop f post
        | (f, some p) => (f, some p) := by
  induction pre with
  | nil =>
    intro files
    simp [removeLoop]
  | cons o rest ih =>
    intro files
    simp only [List.cons_append, removeLoop]
    by_cases hin : outlierPath o ∈ files
    · rw [if_pos hin, if_pos hin]
      exact ih _
    · rw [if_neg hin, if_neg hin]

/-- C8: when every outlier references an existing output image (along
pairwise-distinct paths), `remove_outliers` deletes exactly those image
files, raises nothing, and leaves every CSV file untouched — so each
removed sample's CSV row remains until a later `align_images_and_csvs` pass
prunes it. -/
theorem remove_outliers_effect (outliers : List Outlier) (st : LevelState)
    (hnd : (outliers.map outlierPath).Nodup)
    (hsub : ∀ p ∈ outliers.map outlierPath, p ∈ st.files) :
    remove_outliers outliers st =
      (⟨st.files.filter (fun q => decide (q ∉ outliers.map outlierPath)), st.csvs⟩,
        none) ∧
    (∀ o ∈ outliers, outlierPath o ∉ (remove_outliers outliers st).1.files) ∧
    (remove_outliers outliers st).1.csvs = st.csvs := by
  have hloop := removeLoop_all_present outliers st.files hnd hsub
  refine ⟨?_, ?_, ?_⟩
  · simp [remove_outliers, hloop]
  · intro o ho hmem
    simp only [remove_outliers, hloop] at hmem
    have hd := (List.mem_filter.mp hmem).2
    simp only [decide_eq_true_eq] at hd
    exact hd (List.mem_map_of_mem outlierPath ho)
  · simp [remove_outliers]

/-- Closed witness for `remove_outliers_effect`: removing the single
outlier `(squat, b.jpg)` deletes that file, leaves `(squat, a.jpg)` and the
class CSV (rows for both images) untouched. -/
theorem remove_outliers_effect_witness :
    remove_outliers [⟨⟨"squat", "b.jpg"⟩, "lunge", ["squat", "lunge"]⟩]
        ⟨[("squat", "a.jpg"), ("squat", "b.jpg")],
          [("squat", [["a.jpg", "1"], ["b.jpg", "2"]])]⟩ =
      (⟨[("squat", "a.jpg"), ("squat", "b.jpg")].filter
          (fun q => decide (q ∉ [⟨⟨"squat", "b.jpg"⟩, "lunge",
            ["squat", "lunge"]⟩].map outlierPath)),
        [("squat", [["a.jpg", "1"], ["b.jpg", "2"]])]⟩, none) ∧
    (∀ o ∈ [(⟨⟨"squat", "b.jpg"⟩, "lunge", ["squat", "lunge"]⟩ : Outlier)],
      outlierPath o ∉
        (remove_outliers [⟨⟨"squat", "b.jpg"⟩, "lunge", ["squat", "lunge"]⟩]
          ⟨[("squat", "a.jpg"), ("squat", "b.jpg")],
            [("squat", [["a.jpg", "1"], ["b.jpg", "2"]])]⟩).1.files) ∧
    (remove_outliers [⟨⟨"squat", "b.jpg"⟩, "lunge", ["squat", "lunge"]⟩]
        ⟨[("squat", "a.jpg"), ("squat", "b.jpg")],
          [("squat", [["a.jpg", "1"], ["b.jpg", "2"]])]⟩).1.csvs =
      [("squat", [["a.jpg", "1"], ["b.jpg", "2"]])] :=
  remove_outliers_effect [⟨⟨"squat", "b.jpg"⟩, "lunge", ["squat", "lunge"]⟩]
    ⟨[("squat", "a.jpg"), ("squat", "b.jpg")],
      [("squat", [["a.jpg", "1"], ["b.jpg", "2"]])]⟩
    (by decide) (by decide)

/-- C10: `remove_outliers` performs no existence check: on a list
`pre ++ bad :: post` where every outlier of `pre` references an existing
file (pairwise-distinct paths) and `bad` references a missing one, the
call raises at `bad` with exactly the files of `pre` already deleted and
everything after `bad` — the outliers of `post` — untouched. -/
theorem remove_outliers_partial (pre : List Outlier) (bad : Outlier)
    (post : List Outlier) (st : LevelState)
    (hnd : (pre.map outlierPath).Nodup)
    (hsub : ∀ p ∈ pre.map outlierPath, p ∈ st.files)
    (hbad : outlierPath bad ∉ st.files) :
    remove_outliers (pre ++ bad :: post) st =
      (⟨st.files.filter (fun q => decide (q ∉ pre.map outlierPath)), st.csvs⟩,
        some (outlierPath bad)) := by
  have hloop := removeLoop_all_present pre st.files hnd hsub
  have hbad' : outlierPath bad ∉
      st.files.filter (fun q => decide (q ∉ pre.map outlierPath)) :=
    fun hmem => hbad (List.mem_filter.mp hmem).1
  simp only [remove_outliers, removeLoop_append, hloop]
  simp only [removeLoop, if_neg hbad']

/-- Closed witness for `remove_outliers_partial`: with `(squat, a.jpg)`
present, `(squat, gone.jpg)` absent and `(squat, b.jpg)` after it, the call
deletes `a.jpg`, raises at `gone.jpg` and leaves `b.jpg` in place. -/
theorem remove_outliers_partial_witness :
    remove_outliers
        ([⟨⟨"squat", "a.jpg"⟩, "lunge", ["squat"]⟩] ++
          ⟨⟨"squat", "gone.jpg"⟩, "lunge", ["squat"]⟩ ::
            [⟨⟨"squat", "b.jpg"⟩, "lunge", ["squat"]⟩])
        ⟨[("squat", "a.jpg"), ("squat", "b.jpg")],
          [("squat", [["a.jpg", "1"], ["b.jpg", "2"]])]⟩ =
      (⟨[("squat", "a.jpg"), ("squat", "b.jpg")].filter
          (fun q => decide (q ∉ [⟨⟨"squat", "a.jpg"⟩, "lunge",
            ["squat"]⟩].map outlierPath)),
        [("squat", [["a.jpg", "1"], ["b.jpg", "2"]])]⟩,
        some (outlierPath ⟨⟨"squat", "gone.jpg"⟩, "lunge", ["squat"]⟩)) :=
  remove_outliers_partial [⟨⟨"squat", "a.jpg"⟩, "lunge", ["squat"]⟩]
    ⟨⟨"squat", "gone.jpg"⟩, "lunge", ["squat"]⟩
    [⟨⟨"squat", "b.jpg"⟩, "lunge", ["squat"]⟩]
    ⟨[("squat", "a.jpg"), ("squat", "b.jpg")],
      [("squat", [["a.jpg", "1"], ["b.jpg", "2"]])]⟩
    (by decide) (by decide) (by decide)
